import Mathlib

/-!
Verification development for the calling-gateway backend (src/app.py).
The five HTTP handlers are embedded as pure Lean functions of the
process-wide configuration, the request-scoped inputs (form fields,
JSON body, current time in whole seconds since the epoch) and an
explicit exception oracle: an `Option String` argument that carries the
message of an exception raised inside the handler try-block by an
effectful operation (logging, the signing library), with `Option.none`
meaning no exception occurred.  The try-block bodies themselves are
embedded faithfully as total computations.
-/

namespace MagicSupport

/-- A Python value as it can appear for a key of a decoded JSON body:
absent keys are handled by the lookup, present keys can hold null, a
string, an integer or a boolean. -/
inductive PyVal where
  | none
  | str (s : String)
  | int (n : Int)
  | bool (b : Bool)
  deriving DecidableEq, Repr

/-- The process-wide configuration read from environment variables at
startup (src/app.py lines 32-40).  Startup validation guarantees the six
required values are present, so they are plain strings here. -/
structure Config where
  twilio_account_sid : String
  twilio_auth_token : String
  twilio_api_key : String
  twilio_api_secret : String
  twilio_app_sid : String
  twilio_phone_number : String
  fixed_call_number : String
  deriving DecidableEq, Repr

/-- A form-encoded request body: an association list of field names and
values, as Flask exposes it through request.form. -/
abbrev Form := List (String × String)

/-- Flask request.form.get with a default: the value of the first
matching field, or the default when the field is absent. -/
def formGet (form : Form) (k dflt : String) : String :=
  match form.lookup k with
  | some v => v
  | Option.none => dflt

/-- A decoded JSON request body: `Option.none` models a request whose
body decodes to nothing (request.get_json() returning None, which the
code replaces by the empty dict). -/
abbrev JsonBody := Option (List (String × PyVal))

/-- Python dict.get with a default value. -/
def dictGet (d : List (String × PyVal)) (k : String) (dflt : PyVal) : PyVal :=
  (d.lookup k).getD dflt

/-- The voice grant attached to an access credential (src/app.py lines
105-109): an outbound application binding and the inbound-calls flag. -/
structure VoiceGrant where
  outgoing_application_sid : String
  incoming_allow : Bool
  deriving DecidableEq, Repr

/-- The payload of the signed credential built by the issuance handler
(src/app.py lines 96-109): issuer key id, subject account id, the caller
identity embedded in the grant, issue and expiry times, and the voice
grant. -/
structure AccessTokenPayload where
  iss : String
  sub : String
  identity : PyVal
  iat : Nat
  exp : Nat
  voice : VoiceGrant
  deriving DecidableEq, Repr

/-- The HTTP response of the issuance handler: status code plus the
fields of the JSON body (optional fields are absent on the other
branch). -/
structure TokenResponse where
  status : Nat
  success : Bool
  token : Option AccessTokenPayload
  identity : Option PyVal
  expires_in : Option Nat
  error : Option String
  message : Option String
  deriving DecidableEq, Repr

/-- Embeds generate_access_token (src/app.py lines 69-124).  `now` is
int(datetime.now().timestamp()); `exc` is the exception oracle for the
try-block. -/
def generate_access_token (cfg : Config) (body : JsonBody) (now : Nat)
    (exc : Option String) : TokenResponse :=
  match exc with
  | some e =>
      { status := 500, success := false, token := Option.none,
        identity := Option.none, expires_in := Option.none,
        error := some e, message := some "Failed to generate access token" }
  | Option.none =>
      let data := body.getD []
      let user_identity :=
        dictGet data "identity" (PyVal.str ("caller_" ++ toString now))
      let voice_grant : VoiceGrant :=
        { outgoing_application_sid := cfg.twilio_app_sid,
          incoming_allow := false }
      let token : AccessTokenPayload :=
        { iss := cfg.twilio_api_key, sub := cfg.twilio_account_sid,
          identity := user_identity, iat := now, exp := now + 3600,
          voice := voice_grant }
      { status := 200, success := true, token := some token,
        identity := some user_identity, expires_in := some 3600,
        error := Option.none, message := Option.none }

/-- One verb of the markup document returned to the provider: a dial
instruction with its attributes and its list of target numbers, or a
spoken-text instruction. -/
inductive TwiMLVerb where
  | dial (caller_id : String) (timeout : Nat) (action : String)
      (method : String) (numbers : List String)
  | say (text : String)
  deriving DecidableEq, Repr

/-- The markup document: a root response element holding a list of
verbs. -/
structure TwiMLResponse where
  verbs : List TwiMLVerb
  deriving DecidableEq, Repr

/-- Whether a verb is a dial instruction. -/
def TwiMLVerb.isDial : TwiMLVerb → Bool
  | .dial _ _ _ _ _ => true
  | _ => false

/-- The number of dial instructions in a markup document. -/
def TwiMLResponse.dialCount (r : TwiMLResponse) : Nat :=
  (r.verbs.filter TwiMLVerb.isDial).length

/-- The target numbers of all dial instructions of a markup document,
in order. -/
def TwiMLResponse.dialNumbers (r : TwiMLResponse) : List String :=
  r.verbs.foldr
    (fun v acc =>
      match v with
      | TwiMLVerb.dial _ _ _ _ ns => ns ++ acc
      | _ => acc) []

/-- The texts of all spoken-text instructions of a markup document, in
order. -/
def TwiMLResponse.sayTexts (r : TwiMLResponse) : List String :=
  r.verbs.foldr
    (fun v acc =>
      match v with
      | TwiMLVerb.say t => t :: acc
      | _ => acc) []

/-- The HTTP response of a webhook that answers with markup: the
document, the status code and the content type header. -/
structure WebhookResponse where
  twiml : TwiMLResponse
  status : Nat
  content_type : String
  deriving DecidableEq, Repr

/-- The try-block of handle_voice_webhook (src/app.py lines 134-156),
embedded as a fallible computation: it reads From and CallSid with
defaults, builds the dial directive for the fixed number and returns
it with status 200.  Every operation in it (form lookup with a default,
string formatting for the log lines, markup construction) is total, so
the computation never returns an error. -/
def voice_webhook_try (cfg : Config) (form : Form) :
    Except String WebhookResponse :=
  let caller_identity := formGet form "From" "Unknown"
  let call_sid := formGet form "CallSid" "Unknown"
  let _log1 := "Voice webhook - Call SID: " ++ call_sid ++ ", From: " ++ caller_identity
  let _log2 := "Routing call to fixed number: " ++ cfg.fixed_call_number
  let dial := TwiMLVerb.dial cfg.twilio_phone_number 30
    "/api/calling/call-status" "POST" [cfg.fixed_call_number]
  Except.ok
    { twiml := { verbs := [dial] }, status := 200,
      content_type := "text/xml" }

/-- The response built by the except-branch of handle_voice_webhook
(src/app.py lines 158-165): a spoken apology, status 500, same content
type. -/
def voice_webhook_error_response : WebhookResponse :=
  { twiml := { verbs := [TwiMLVerb.say
      "Sorry, there was an error connecting your call. Please try again later."] },
    status := 500, content_type := "text/xml" }

/-- Embeds handle_voice_webhook (src/app.py lines 126-165): run the
try-block unless the exception oracle injects a failure; any failure is
answered by the fixed apology document. -/
def handle_voice_webhook (cfg : Config) (form : Form)
    (exc : Option String) : WebhookResponse :=
  let attempt : Except String WebhookResponse :=
    match exc with
    | some e => Except.error e
    | Option.none => voice_webhook_try cfg form
  match attempt with
  | Except.ok r => r
  | Except.error _ => voice_webhook_error_response

/-- The HTTP response of the call-status webhook: a body string and a
status code. -/
structure StatusResponse where
  body : String
  status : Nat
  deriving DecidableEq, Repr

/-- Embeds handle_call_status (src/app.py lines 167-189): read the five
optional event fields, log them, answer 200 with an empty body; on an
injected exception answer 500 with an empty body. -/
def handle_call_status (form : Form) (exc : Option String) :
    StatusResponse :=
  match exc with
  | some _ => { body := "", status := 500 }
  | Option.none =>
      let _call_sid := form.lookup "CallSid"
      let _call_status := form.lookup "CallStatus"
      let _call_duration := formGet form "CallDuration" "0"
      let _from_number := form.lookup "From"
      let _to_number := form.lookup "To"
      { body := "", status := 200 }

/-- The feature flags block of the config response (src/app.py lines
203-209). -/
structure CallingFeatures where
  outgoing_calls : Bool
  incoming_calls : Bool
  call_recording : Bool
  mute : Bool
  hold : Bool
  deriving DecidableEq, Repr

/-- The limits block of the config response (src/app.py lines
210-213). -/
structure CallingLimits where
  max_call_duration : Nat
  concurrent_calls : Nat
  deriving DecidableEq, Repr

/-- The config object of the config response (src/app.py lines
199-214). -/
structure CallingConfig where
  fixed_number : String
  display_number : String
  service_name : String
  features : CallingFeatures
  limits : CallingLimits
  deriving DecidableEq, Repr

/-- The HTTP response of the config query. -/
structure ConfigResponse where
  status : Nat
  success : Bool
  config : CallingConfig
  deriving DecidableEq, Repr

/-- Embeds get_calling_config (src/app.py lines 191-215).  The handler
reads nothing request-scoped; the form and time arguments are present
to state that the output does not depend on them. -/
def get_calling_config (cfg : Config) (req : Form) (now : Nat) :
    ConfigResponse :=
  { status := 200, success := true,
    config :=
      { fixed_number := cfg.fixed_call_number,
        display_number := cfg.fixed_call_number,
        service_name := "Customer Service",
        features :=
          { outgoing_calls := true, incoming_calls := false,
            call_recording := false, mute := true, hold := false },
        limits := { max_call_duration := 1800, concurrent_calls := 1 } } }

/-- A concrete configuration used to exercise the handlers at specific
inputs. -/
def cfgW : Config :=
  { twilio_account_sid := "AC0", twilio_auth_token := "tk0",
    twilio_api_key := "SK0", twilio_api_secret := "sec0",
    twilio_app_sid := "AP0", twilio_phone_number := "+15550000000",
    fixed_call_number := "+18009359935" }

end MagicSupport

namespace MagicSupport

/-- Claim C1: for every form-encoded input to the voice webhook
(including the empty form), the successful response is a markup
document with exactly one dial instruction, its only target number is
the configured destination number, and the whole response is the same
for any two forms: routing is a constant function of the configuration,
independent of the supplied From and CallSid values. -/
theorem voice_webhook_fixed_route (cfg : Config) (form form2 : Form) :
    (handle_voice_webhook cfg form Option.none).twiml.dialCount = 1 ∧
    (handle_voice_webhook cfg form Option.none).twiml.dialNumbers =
      [cfg.fixed_call_number] ∧
    handle_voice_webhook cfg form Option.none =
      handle_voice_webhook cfg form2 Option.none := by
  exact ⟨rfl, rfl, rfl⟩

/-- Claim C2: every credential produced by the issuance handler has
inbound calls disabled, an outbound application binding equal to the
configured application identifier, and an expiry exactly 3600 seconds
after issuance, and the response body reports expires_in = 3600. -/
theorem token_grant_invariants (cfg : Config) (body : JsonBody)
    (now : Nat) :
    ((generate_access_token cfg body now Option.none).token.map
        (fun p => p.voice.incoming_allow)) = some false ∧
    ((generate_access_token cfg body now Option.none).token.map
        (fun p => p.voice.outgoing_application_sid)) =
      some cfg.twilio_app_sid ∧
    ((generate_access_token cfg body now Option.none).token.map
        (fun p => p.exp)) = some (now + 3600) ∧
    ((generate_access_token cfg body now Option.none).token.map
        (fun p => p.iat)) = some now ∧
    (generate_access_token cfg body now Option.none).expires_in =
      some 3600 := by
  exact ⟨rfl, rfl, rfl, rfl, rfl⟩

/-- Claim C3: whenever an exception is raised while the voice webhook
builds its directive, the handler answers 500 with content type
text/xml, and the body is a markup document holding exactly the fixed
spoken apology and no dial instruction. -/
theorem voice_webhook_error_branch (cfg : Config) (form : Form)
    (e : String) :
    (handle_voice_webhook cfg form (some e)).status = 500 ∧
    (handle_voice_webhook cfg form (some e)).content_type = "text/xml" ∧
    (handle_voice_webhook cfg form (some e)).twiml.sayTexts =
      ["Sorry, there was an error connecting your call. Please try again later."] ∧
    (handle_voice_webhook cfg form (some e)).twiml.dialCount = 0 := by
  exact ⟨rfl, rfl, rfl, rfl⟩

/-- Claim C4: when issuance fails, the handler answers 500 with a JSON
body carrying success = false, the exception message as error and a
fixed message, and the error output is independent of the signing
secret: two configurations differing only in the secret produce the
identical failure response. -/
theorem token_error_no_secret_leak (cfg : Config) (body : JsonBody)
    (now : Nat) (e : String) (s1 s2 : String) :
    (generate_access_token cfg body now (some e)).status = 500 ∧
    (generate_access_token cfg body now (some e)).success = false ∧
    (generate_access_token cfg body now (some e)).error = some e ∧
    (generate_access_token cfg body now (some e)).message =
      some "Failed to generate access token" ∧
    generate_access_token { cfg with twilio_api_secret := s1 } body now
        (some e) =
      generate_access_token { cfg with twilio_api_secret := s2 } body now
        (some e) := by
  exact ⟨rfl, rfl, rfl, rfl, rfl⟩

/-- Claim C5: if the JSON body binds identity to a string X, the
returned identity is exactly X and X is the identity embedded in the
issued grant; if the body has no identity key, the returned identity is
the string caller_ followed by the seconds-since-epoch at issuance, and
that identity is embedded in the issued grant. -/
theorem token_identity (cfg : Config) (body : List (String × PyVal))
    (now : Nat) :
    (∀ x : String, body.lookup "identity" = some (PyVal.str x) →
      (generate_access_token cfg (some body) now Option.none).identity =
          some (PyVal.str x) ∧
      ((generate_access_token cfg (some body) now Option.none).token.map
          (fun p => p.identity)) = some (PyVal.str x)) ∧
    (body.lookup "identity" = Option.none →
      (generate_access_token cfg (some body) now Option.none).identity =
          some (PyVal.str ("caller_" ++ toString now)) ∧
      ((generate_access_token cfg (some body) now Option.none).token.map
          (fun p => p.identity)) =
        some (PyVal.str ("caller_" ++ toString now))) := by
  constructor
  · intro x h
    simp [generate_access_token, dictGet, h]
  · intro h
    simp [generate_access_token, dictGet, h]

/-- Witness for C5: at a concrete configuration and time, a body
supplying identity X gets back exactly X, and a body with no identity
key gets back caller_7. -/
theorem token_identity_witness :
    (generate_access_token cfgW (some [("identity", PyVal.str "X")]) 7
        Option.none).identity = some (PyVal.str "X") ∧
    (generate_access_token cfgW (some []) 7
        Option.none).identity = some (PyVal.str "caller_7") :=
  ⟨((token_identity cfgW [("identity", PyVal.str "X")] 7).1 "X"
      (by decide)).1,
   ((token_identity cfgW [] 7).2 rfl).1⟩

/-- Claim C6: the call-status webhook answers 200 with an empty body on
every form input, whichever fields are present, and answers 500 with an
empty body when an exception is injected. -/
theorem call_status_responses (form : Form) (e : String) :
    handle_call_status form Option.none = { body := "", status := 200 } ∧
    handle_call_status form (some e) = { body := "", status := 500 } := by
  exact ⟨rfl, rfl⟩

/-- Claim C7: on every input, the successful voice-webhook response
holds one dial instruction whose caller id is the configured provider
number, whose ring timeout is 30 seconds, and whose status callback is
the call-status path with method POST, targeting the fixed number. -/
theorem voice_webhook_dial_attributes (cfg : Config) (form : Form) :
    (handle_voice_webhook cfg form Option.none).twiml.verbs =
      [TwiMLVerb.dial cfg.twilio_phone_number 30
        "/api/calling/call-status" "POST" [cfg.fixed_call_number]] := by
  exact rfl

/-- Claim C8: the config query is deterministic and side-effect-free:
any two invocations under the same configuration return the identical
response, whose body is success = true with the config object of fields
fixed_number, display_number, service_name, features and limits. -/
theorem config_deterministic (cfg : Config) (r1 r2 : Form)
    (n1 n2 : Nat) :
    get_calling_config cfg r1 n1 = get_calling_config cfg r2 n2 ∧
    (get_calling_config cfg r1 n1).status = 200 ∧
    (get_calling_config cfg r1 n1).success = true ∧
    (get_calling_config cfg r1 n1).config =
      { fixed_number := cfg.fixed_call_number,
        display_number := cfg.fixed_call_number,
        service_name := "Customer Service",
        features :=
          { outgoing_calls := true, incoming_calls := false,
            call_recording := false, mute := true, hold := false },
        limits :=
          { max_call_duration := 1800, concurrent_calls := 1 } } := by
  exact ⟨rfl, rfl, rfl, rfl⟩

/-- Claim C9: with the required configuration loaded, the try-block of
the voice webhook never raises: its faithful embedding returns a
success on every form input, so on real input the handler answers 200
and the apology branch is unreachable. -/
theorem voice_try_never_raises (cfg : Config) (form : Form) :
    (voice_webhook_try cfg form).isOk = true ∧
    (handle_voice_webhook cfg form Option.none).status = 200 := by
  exact ⟨rfl, rfl⟩

/-- Claim C10: in every config-query response, display_number equals
fixed_number, and both are exactly the configured destination number
with no formatting applied. -/
theorem config_display_equals_fixed (cfg : Config) (r : Form)
    (n : Nat) :
    (get_calling_config cfg r n).config.display_number =
      (get_calling_config cfg r n).config.fixed_number ∧
    (get_calling_config cfg r n).config.fixed_number =
      cfg.fixed_call_number := by
  exact ⟨rfl, rfl⟩

end MagicSupport
